import Mathlib

/-!
Verification of the pairing-code server repository.

The repository contains several near-identical Express + Baileys servers.
The definitions below are shallow embeddings of the functions cited by the
claims, one namespace per source file:

  - `ServerJs`  : src/server.js
  - `Part000`   : src/unnamed/part_000
  - `Part002`   : src/unnamed/part_002
  - `Part003`   : src/unnamed/part_003
  - `Part005`   : src/unnamed/part_005
  - `Part006`   : src/unnamed/part_006

Asynchronous provider calls are modelled as a function from a call counter
to an outcome, the single-threaded event loop as sequential execution, and
timers as recorded delays.  Loops whose termination is in question are
modelled with explicit fuel, a `none` result meaning the loop is still
running after that many iterations.
-/

namespace Pair

/-- JS `s.replace(slash-D-global, "")`: keep only the ASCII digits of a string. -/
def stripNonDigits (s : String) : String := ⟨s.data.filter Char.isDigit⟩

/-- Group a character list into chunks of at most 4 characters, as the JS
regex match of one-to-four arbitrary characters, applied globally, does. -/
def chunksOf4 : List Char → List (List Char)
  | [] => []
  | [a] => [[a]]
  | [a, b] => [[a, b]]
  | [a, b, c] => [[a, b, c]]
  | a :: b :: c :: d :: rest => [a, b, c, d] :: chunksOf4 rest

/-- JS `raw.match(dot-one-to-four, g)?.join("-") || raw`: group the raw code
into chunks of 4 characters joined by dashes.  On the empty string the JS
match is null and the fallback returns the raw string unchanged; raw pairing
codes are alphanumeric, so the newline carve-out of the JS dot is irrelevant. -/
def formatCode (raw : String) : String :=
  if raw.isEmpty then raw
  else String.intercalate "-" ((chunksOf4 raw.data).map (fun cs => String.mk cs))

/-- Disconnect reasons of the Baileys client that the close handlers switch on. -/
inductive DisconnectReason
  | badSession
  | connectionClosed
  | connectionLost
  | loggedOut
  | restartRequired
  | timedOut
  | unknownReason
deriving DecidableEq

/-- What a close handler ultimately does with the process. -/
inductive ProcAction
  | restartSock
  | exitProcess
deriving DecidableEq

/-- Summary of one branch of a connection-close handler: whether the session
credential directory is removed, what happens to the process, and the delay
in milliseconds before the restart (0 when the action is immediate). -/
structure CloseAction where
  clearsCreds : Bool
  action : ProcAction
  delayMs : Nat
deriving DecidableEq

/-- Visible content of a file after a possible crash: completely written,
or truncated by a crash in the middle of a write. -/
inductive FileView
  | full (data : String)
  | truncated
deriving DecidableEq

/-- File-system operations used by the result persisters. -/
inductive FsOp
  | write (p : String) (data : String)
  | rename (src dst : String)

/-- Directory contents: maps a path to the file visible there, if any. -/
def Fs : Type := String → Option FileView

/-- Effect of one completed file-system operation.  `write` replaces the
file at the path; `rename` moves the file at `src` to `dst` atomically. -/
def applyOp (fs : Fs) : FsOp → Fs
  | .write p d => fun q => if q = p then some (.full d) else fs q
  | .rename src dst =>
      fun q => if q = dst then fs src else if q = src then none else fs q

/-- States a crash in the middle of one operation can leave behind.  An
interrupted write can leave a truncated file at its path; a rename is atomic
and has no intermediate state. -/
def midCrash (fs : Fs) : FsOp → List Fs
  | .write p _ => [fun q => if q = p then some .truncated else fs q]
  | .rename _ _ => []

/-- All directory states visible if the process crashes at any point while
executing the operation script: before each operation, in the middle of each
operation, and after the final operation. -/
def crashViews (fs : Fs) : List FsOp → List Fs
  | [] => [fs]
  | op :: rest => fs :: midCrash fs op ++ crashViews (applyOp fs op) rest

end Pair

namespace ServerJs

open Pair

/-- Outcome of one `sock.requestPairingCode` call as seen by the caller in
src/server.js: a raw code, an error whose message mentions rate or limit
(the rate-limit branch), or any other error. -/
inductive ProviderOutcome
  | ok (raw : String)
  | rateLimited
  | failed
deriving DecidableEq

/-- Errors thrown by `generatePairingCodes` in src/server.js. -/
inductive GenError
  | notConnected
  | invalidPhone
  | invalidCount
  | codeGenFailed (slot : Nat)
deriving DecidableEq

/-- Result of a `generatePairingCodes` run: the resolved codes or the thrown
error, the phone number used on each provider call in order, and whether the
finally block scheduled the post-run cleanup. -/
structure GenResult where
  result : Except GenError (List String)
  providerCalls : List String
  cleanupScheduled : Bool

/-- Effects of `clearSessionAndRestart` in src/server.js. -/
inductive FxEffect
  | deleteSessionDir
  | scheduleStartSock
deriving DecidableEq

/-- src/server.js `clearSessionAndRestart`: removes the sessions directory,
then schedules `startSock` on a timer. -/
def clearSessionAndRestartFx : List FxEffect :=
  [.deleteSessionDir, .scheduleStartSock]

/-- The `for` loop of `generatePairingCodes` (src/server.js lines 185-214).
Arguments after the fixed parameters: fuel, slot index `i`, provider call
counter, accumulated codes, accumulated provider calls.  On a rate-limited
error the loop sleeps and retries the same slot (`i--; continue`), with no
bound on the number of retries, so the loop is given explicit fuel; `none`
means the loop is still running after that many iterations.  Note the raw
code is pushed as returned, without any formatting. -/
def genLoop (connected : Bool) (provider : Nat → ProviderOutcome)
    (phone : String) (codeCount : Nat) :
    Nat → Nat → Nat → List String → List String →
    Option (Except GenError (List String) × List String)
  | 0, _, _, _, _ => none
  | fuel + 1, i, callIdx, codes, calls =>
    if i < codeCount then
      if connected then
        match provider callIdx with
        | .ok raw =>
            genLoop connected provider phone codeCount fuel
              (i + 1) (callIdx + 1) (codes ++ [raw]) (calls ++ [phone])
        | .rateLimited =>
            genLoop connected provider phone codeCount fuel
              i (callIdx + 1) codes (calls ++ [phone])
        | .failed =>
            some (.error (.codeGenFailed i), calls ++ [phone])
      else some (.error (.codeGenFailed i), calls)
    else some (.ok codes, calls)

/-- src/server.js `generatePairingCodes` (lines 162-229): validation of the
connection, of the digits-only phone number (10 to 15 digits) and of the
count (1 to 500) happens before the try block, so a validation failure makes
no provider call and schedules no cleanup.  Once the loop starts, the finally
block schedules `clearSessionAndRestart` whether the run resolves or throws.
`none` means the loop never finished within the given fuel. -/
def generatePairingCodes (connected : Bool) (provider : Nat → ProviderOutcome)
    (phoneNumber : String) (count : Int) (fuel : Nat) : Option GenResult :=
  if ¬ connected then
    some { result := .error .notConnected, providerCalls := [],
           cleanupScheduled := false }
  else
    let cleanNumber := stripNonDigits phoneNumber
    if cleanNumber.length < 10 ∨ 15 < cleanNumber.length then
      some { result := .error .invalidPhone, providerCalls := [],
             cleanupScheduled := false }
    else if count < 1 ∨ 500 < count then
      some { result := .error .invalidCount, providerCalls := [],
             cleanupScheduled := false }
    else
      match genLoop connected provider cleanNumber count.toNat fuel 0 0 [] [] with
      | none => none
      | some (r, calls) =>
          some { result := r, providerCalls := calls, cleanupScheduled := true }

/-- The `connection.update` close switch of src/server.js (lines 100-135):
badSession and loggedOut clear the session directory and restart after 2s;
the transient reasons restart without clearing; timedOut uses a 5s delay;
unknown reasons restart after 3s.  No branch exits the process. -/
def onCloseAction : DisconnectReason → CloseAction
  | .badSession => ⟨true, .restartSock, 2000⟩
  | .loggedOut => ⟨true, .restartSock, 2000⟩
  | .connectionClosed => ⟨false, .restartSock, 3000⟩
  | .connectionLost => ⟨false, .restartSock, 3000⟩
  | .timedOut => ⟨false, .restartSock, 5000⟩
  | .restartRequired => ⟨false, .restartSock, 2000⟩
  | .unknownReason => ⟨false, .restartSock, 3000⟩

end ServerJs

namespace Part000

open Pair

/-- Connection state of src/unnamed/part_000: the ready and connecting flags,
the reconnect attempt counter, and whether session credentials are present on
disk. -/
structure ConnState where
  ready : Bool
  connecting : Bool
  reconnectAttempts : Nat
  credsPresent : Bool
deriving DecidableEq

/-- part_000 `maxReconnectAttempts`. -/
def maxReconnectAttempts : Nat := 10

/-- part_000 `scheduleReconnect` (lines 171-185): when the attempt ceiling is
reached, nothing is scheduled; otherwise the counter is incremented first and
the delay is an exponential backoff on the incremented counter, capped at
30000 ms.  The returned option is the scheduled delay. -/
def scheduleReconnect (s : ConnState) : ConnState × Option Nat :=
  if maxReconnectAttempts ≤ s.reconnectAttempts then (s, none)
  else
    let a := s.reconnectAttempts + 1
    ({ s with reconnectAttempts := a }, some (min (1000 * 2 ^ a) 30000))

/-- part_000 `clearSession` (lines 160-169): removes the credential
directory. -/
def clearSession (s : ConnState) : ConnState := { s with credsPresent := false }

/-- The close branch of the part_000 `connection.update` handler (lines
123-144): ready and connecting are cleared; a non-loggedOut reason with the
counter below the ceiling schedules a reconnect; a loggedOut reason clears
the session and then schedules a reconnect; otherwise nothing is scheduled. -/
def onClose (s : ConnState) (code : DisconnectReason) : ConnState × Option Nat :=
  let s1 := { s with ready := false, connecting := false }
  if code ≠ DisconnectReason.loggedOut ∧
      s1.reconnectAttempts < maxReconnectAttempts then
    scheduleReconnect s1
  else if code = DisconnectReason.loggedOut then
    scheduleReconnect (clearSession s1)
  else (s1, none)

/-- The open branch of the part_000 handler (lines 145-150): sets ready,
clears connecting and resets the reconnect counter to 0. -/
def onOpen (s : ConnState) : ConnState :=
  { s with ready := true, connecting := false, reconnectAttempts := 0 }

/-- part_000 `saveCodesToDisk` (lines 221-250) as a file-system script: write
the batch to a temporary path (final path plus a tmp suffix), then atomically
rename it onto the final path. -/
def saveOps (filepath : String) (data : String) : List FsOp :=
  [.write (filepath ++ ".tmp") data, .rename (filepath ++ ".tmp") filepath]

end Part000

namespace Part002

open Pair

/-- The loop of `generateCodes` in src/unnamed/part_002 (lines 116-126):
for each slot, request one raw code from the connection, format it into
dash-joined chunks of 4, and append it.  The provider maps the call counter
to the raw code it returns; arguments are the remaining slot count and the
call counter. -/
def generateCodesFrom (provider : Nat → String) : Nat → Nat → List String
  | 0, _ => []
  | c + 1, i => formatCode (provider i) :: generateCodesFrom provider c (i + 1)

/-- part_002 `generateCodes`: run the loop for `count` slots starting at the
first provider call. -/
def generateCodes (provider : Nat → String) (count : Nat) : List String :=
  generateCodesFrom provider count 0

end Part002

namespace Part003

open Pair

/-- part_003 `MAX_COUNT` default. -/
def MAX_COUNT : Int := 500

/-- part_003 line 342: `Math.max(1, Math.min(count, MAX_COUNT))`. -/
def sanitizedCount (count : Int) : Int := max 1 (min count MAX_COUNT)

/-- One slot of the part_003 `generatePairingCodes` loop (lines 221-254): up
to `maxAttempts = 3` attempts; an attempt with the socket not ready throws
before any provider call; a successful provider call yields the formatted
code; a failed call backs off and retries, and when the attempts are
exhausted the slot records the sentinel string "failed".  The provider maps
the call counter to `some raw` or `none` (a thrown error).  Arguments after
the fixed parameters: remaining attempts, call counter.  Returns the slot
string and the number of provider calls consumed. -/
def trySlot (ready : Bool) (provider : Nat → Option String) :
    Nat → Nat → String × Nat
  | 0, _ => ("failed", 0)
  | r + 1, callIdx =>
    if ready then
      match provider callIdx with
      | some raw => (formatCode raw, 1)
      | none =>
          let p := trySlot ready provider r (callIdx + 1)
          (p.1, p.2 + 1)
    else
      trySlot ready provider r callIdx

/-- part_003 `maxAttempts` per slot. -/
def maxAttempts : Nat := 3

/-- The slot loop of part_003 `generatePairingCodes`: one `trySlot` per slot,
threading the provider call counter.  Arguments: remaining slots, call
counter.  Returns the codes (one string per slot, in order) and the total
number of provider calls made. -/
def genCodes (ready : Bool) (provider : Nat → Option String) :
    Nat → Nat → List String × Nat
  | 0, _ => ([], 0)
  | c + 1, callIdx =>
    let slot := trySlot ready provider maxAttempts callIdx
    let rest := genCodes ready provider c (callIdx + slot.2)
    (slot.1 :: rest.1, slot.2 + rest.2)

/-- A queued pairing request: an identifier for tracing and the requested
count. -/
structure Request where
  id : Nat
  count : Nat
deriving DecidableEq

/-- Per-phone queue entry of part_003 (line 34): the pending requests and the
processing flag of the single-flight worker. -/
structure PhoneQueue where
  requests : List Request
  processing : Bool

/-- part_003 `queuePairingRequest` plus the entry guard of
`processPhoneQueue` (lines 269-312): the request is appended to the pending
list; the drain worker starts only when no worker is already processing this
phone, in which case the processing flag is set.  The boolean result records
whether a new worker started. -/
def enqueue (q : PhoneQueue) (r : Request) : PhoneQueue × Bool :=
  let q1 := { q with requests := q.requests ++ [r] }
  if q1.processing then (q1, false)
  else ({ q1 with processing := true }, true)

/-- Condition with which a drained request settles. -/
inductive Outcome
  | resolved (codes : List String)
  | rejected (reason : String)
deriving DecidableEq

/-- The drain loop of part_003 `processPhoneQueue` (lines 274-300): requests
are shifted from the front in FIFO order; a request drained while the socket
is not ready is rejected immediately with the not-ready condition and makes
no provider call; otherwise the generator runs to completion for that request
before the next request is touched.  `readyAt k` is the socket readiness
observed when the k-th request of this drain is shifted; the trace records,
per provider call in order, the id of the request it belongs to.  Arguments:
requests, position of the next request in this drain, provider call
counter. -/
def drainAll (readyAt : Nat → Bool) (provider : Nat → Option String) :
    List Request → Nat → Nat → List (Nat × Outcome) × List Nat
  | [], _, _ => ([], [])
  | req :: rest, k, callIdx =>
    if readyAt k then
      let g := genCodes true provider req.count callIdx
      let p := drainAll readyAt provider rest (k + 1) (callIdx + g.2)
      ((req.id, .resolved g.1) :: p.1, List.replicate g.2 req.id ++ p.2)
    else
      let p := drainAll readyAt provider rest (k + 1) callIdx
      ((req.id, .rejected "Socket not ready") :: p.1, p.2)

end Part003

namespace Part005

open Pair

/-- The code loop of the part_005 `/ui/pair` handler (lines 114-120): request
a code, format it, push it, for `count` slots.  Returns the codes and the
phone number used on each provider call.  Arguments: remaining slots, call
counter. -/
def uiLoop (provider : Nat → String) (phone : String) :
    Nat → Nat → List String × List String
  | 0, _ => ([], [])
  | c + 1, i =>
    let rest := uiLoop provider phone c (i + 1)
    (formatCode (provider i) :: rest.1, phone :: rest.2)

/-- part_005 `/ui/pair` (lines 102-123): the phone is the input with all
non-digits stripped; the count is capped at 500 (the parseInt of the raw
count, or 1 when absent, is taken as given); an empty normalized phone is
rejected before any provider call.  Returns the rendered result and the
phone number used on each provider call. -/
def uiPair (provider : Nat → String) (rawPhone : String) (rawCount : Int) :
    Except String (List String) × List String :=
  let phone := stripNonDigits rawPhone
  let count := min rawCount 500
  if phone = "" then (.error "Invalid phone input", [])
  else
    let r := uiLoop provider phone count.toNat 0
    (.ok r.1, r.2)

/-- The close switch of part_005 `startSock` (lines 46-64) together with its
`clearSessionAndRestart` (lines 84-95): badSession clears the session and
restarts in-process; the transient reasons restart; loggedOut clears the
session and calls process.exit(0); unknown reasons restart. -/
def onCloseAction : DisconnectReason → CloseAction
  | .badSession => ⟨true, .restartSock, 0⟩
  | .connectionClosed => ⟨false, .restartSock, 0⟩
  | .connectionLost => ⟨false, .restartSock, 0⟩
  | .timedOut => ⟨false, .restartSock, 0⟩
  | .restartRequired => ⟨false, .restartSock, 0⟩
  | .loggedOut => ⟨true, .exitProcess, 0⟩
  | .unknownReason => ⟨false, .restartSock, 0⟩

/-- part_005 `clearSessionAndRestart` (lines 84-95): clears the session
directory and then calls process.exit(0), relying on the platform to restart
the process. -/
def clearSessionAndRestartAction : CloseAction := ⟨true, .exitProcess, 0⟩

end Part005

namespace Part006

open Pair

/-- part_006 `saveCodesToDisk` (lines 91-97) as a file-system script: a
single direct write to the final path, with no temporary file and no
rename. -/
def saveOps (filepath : String) (data : String) : List FsOp :=
  [.write filepath data]

/-- The loop of part_006 `generatePairingCodes` (lines 99-109): there is no
per-slot catch, so the first provider error aborts the whole batch; a
successful call contributes its formatted code.  Arguments: remaining slots,
call counter. -/
def genCodes (provider : Nat → Option String) :
    Nat → Nat → Except String (List String)
  | 0, _ => .ok []
  | c + 1, i =>
    match provider i with
    | none => .error "request failed"
    | some raw =>
        match genCodes provider c (i + 1) with
        | .error e => .error e
        | .ok rest => .ok (formatCode raw :: rest)

/-- One iteration of the part_006 `processPhoneQueue` drain (lines 123-137):
a not-ready socket throws, the catch rejects the request and calls
`clearSessionAndRestart`; a completed generation resolves the request and
also calls `clearSessionAndRestart`.  The boolean records whether the
session-clear-and-restart ran. -/
def processOne (ready : Bool) (provider : Nat → Option String) (count : Nat) :
    Part003.Outcome × Bool :=
  if ready then
    match genCodes provider count 0 with
    | .error e => (.rejected e, true)
    | .ok codes => (.resolved codes, true)
  else (.rejected "Socket not ready, try again later", true)

end Part006

/-! Helper lemmas shared by the claim theorems. -/

/-- A path is never equal to itself with the tmp suffix appended. -/
theorem self_ne_append_tmp (f : String) : f ≠ f ++ ".tmp" := by
  intro h
  have hl := congrArg String.length h
  rw [String.length_append] at hl
  have h4 : (".tmp" : String).length = 4 := rfl
  omega

/-- The part_003 generator always produces exactly one slot string per
requested slot, whatever the readiness and the provider do. -/
theorem Part003.genCodes_length (ready : Bool) (provider : Nat → Option String) :
    ∀ (n c0 : Nat), ((Part003.genCodes ready provider n c0).1).length = n := by
  intro n
  induction n with
  | zero => intro c0; rfl
  | succ m ih =>
      intro c0
      simp [Part003.genCodes, ih]

/-- One slot of the part_003 generator makes at most as many provider calls
as it has attempts left. -/
theorem Part003.trySlot_calls_le (ready : Bool) (provider : Nat → Option String) :
    ∀ (a c : Nat), (Part003.trySlot ready provider a c).2 ≤ a := by
  intro a
  induction a with
  | zero => intro c; simp [Part003.trySlot]
  | succ r ih =>
      intro c
      cases ready
      · simpa [Part003.trySlot] using le_trans (ih c) (Nat.le_succ r)
      · cases hp : provider c with
        | some raw => simp [Part003.trySlot, hp]
        | none =>
            have h1 := ih (c + 1)
            simp [Part003.trySlot, hp]
            omega

/-- The part_003 generator makes at most `maxAttempts` provider calls per
slot, hence at most three times the slot count in total. -/
theorem Part003.genCodes_calls_le (ready : Bool) (provider : Nat → Option String) :
    ∀ (n c0 : Nat), (Part003.genCodes ready provider n c0).2 ≤ 3 * n := by
  intro n
  induction n with
  | zero => intro c0; simp [Part003.genCodes]
  | succ m ih =>
      intro c0
      simp only [Part003.genCodes]
      have h1 := Part003.trySlot_calls_le ready provider Part003.maxAttempts c0
      have h2 := ih (c0 + (Part003.trySlot ready provider Part003.maxAttempts c0).2)
      have h3 : Part003.maxAttempts = 3 := rfl
      omega

/-- When every provider call succeeds, each slot of the part_003 generator
consumes exactly one provider call. -/
theorem Part003.genCodes_calls_ok (f : Nat → String) :
    ∀ (n c0 : Nat), (Part003.genCodes true (fun i => some (f i)) n c0).2 = n := by
  intro n
  induction n with
  | zero => intro c0; rfl
  | succ m ih =>
      intro c0
      simp [Part003.genCodes, Part003.trySlot, Part003.maxAttempts, ih]
      omega

/-- The drain loop settles every pending request exactly once, in FIFO
order: the settled ids are the pending ids in submission order. -/
theorem Part003.drainAll_ids (readyAt : Nat → Bool) (provider : Nat → Option String) :
    ∀ (reqs : List Part003.Request) (k c0 : Nat),
      (Part003.drainAll readyAt provider reqs k c0).1.map Prod.fst =
        reqs.map Part003.Request.id := by
  intro reqs
  induction reqs with
  | nil => intro k c0; rfl
  | cons req rest ih =>
      intro k c0
      by_cases hr : readyAt k
      · simp [Part003.drainAll, hr, ih]
      · simp [Part003.drainAll, hr, ih]

/-- In a block of `n` copies of `a` followed by copies of `b`, with `a` and
`b` distinct, an index holding `a` lies in the first block. -/
theorem get_replicate_append_lt {α : Type} (a b : α) (hab : a ≠ b)
    (n m i : Nat) (h : i < (List.replicate n a ++ List.replicate m b).length) :
    (List.replicate n a ++ List.replicate m b).get ⟨i, h⟩ = a → i < n := by
  intro hget
  by_contra hge
  push_neg at hge
  have hlen : (List.replicate n a ++ List.replicate m b).length = n + m := by
    simp
  have hi : i - n < m := by omega
  have : (List.replicate n a ++ List.replicate m b).get ⟨i, h⟩ = b := by
    rw [List.get_eq_getElem, List.getElem_append_right (by simpa using hge)]
    simp
  rw [hget] at this
  exact hab this

/-- In a block of `n` copies of `a` followed by copies of `b`, with `a` and
`b` distinct, an index holding `b` lies past the first block. -/
theorem get_replicate_append_ge {α : Type} (a b : α) (hab : a ≠ b)
    (n m j : Nat) (h : j < (List.replicate n a ++ List.replicate m b).length) :
    (List.replicate n a ++ List.replicate m b).get ⟨j, h⟩ = b → n ≤ j := by
  intro hget
  by_contra hlt
  push_neg at hlt
  have : (List.replicate n a ++ List.replicate m b).get ⟨j, h⟩ = a := by
    rw [List.get_eq_getElem, List.getElem_append_left (by simpa using hlt)]
    simp
  rw [hget] at this
  exact hab this.symm

/-- Under a provider that reports a rate-limit on every call, the server.js
generation loop never finishes: every iteration retries the same slot. -/
theorem ServerJs.genLoop_rl_none (phone : String) (codeCount : Nat) :
    ∀ (fuel i callIdx : Nat) (codes calls : List String), i < codeCount →
      ServerJs.genLoop true (fun _ => ServerJs.ProviderOutcome.rateLimited)
        phone codeCount fuel i callIdx codes calls = none := by
  intro fuel
  induction fuel with
  | zero => intro i callIdx codes calls _; rfl
  | succ f ih =>
      intro i callIdx codes calls hi
      simp only [ServerJs.genLoop, hi, if_true]
      exact ih i (callIdx + 1) codes (calls ++ [phone]) hi

/-- Every provider call recorded by a finished server.js generation loop
uses either a previously recorded number or the loop's phone number. -/
theorem ServerJs.genLoop_calls_mem (connected : Bool)
    (provider : Nat → ServerJs.ProviderOutcome) (phone : String) (codeCount : Nat) :
    ∀ (fuel i callIdx : Nat) (codes calls : List String) r,
      ServerJs.genLoop connected provider phone codeCount fuel i callIdx codes calls =
        some r →
      ∀ x ∈ r.2, x ∈ calls ∨ x = phone := by
  intro fuel
  induction fuel with
  | zero => intro i callIdx codes calls r h; cases h
  | succ f ih =>
      intro i callIdx codes calls r h x hx
      simp only [ServerJs.genLoop] at h
      by_cases hi : i < codeCount
      · rw [if_pos hi] at h
        by_cases hc : connected
        · rw [if_pos hc] at h
          cases hp : provider callIdx <;> rw [hp] at h
          · rcases ih _ _ _ _ _ h x hx with hmem | hphone
            · rcases List.mem_append.mp hmem with h1 | h2
              · exact Or.inl h1
              · exact Or.inr (List.mem_singleton.mp h2)
            · exact Or.inr hphone
          · rcases ih _ _ _ _ _ h x hx with hmem | hphone
            · rcases List.mem_append.mp hmem with h1 | h2
              · exact Or.inl h1
              · exact Or.inr (List.mem_singleton.mp h2)
            · exact Or.inr hphone
          · cases h
            rcases List.mem_append.mp hx with h1 | h2
            · exact Or.inl h1
            · exact Or.inr (List.mem_singleton.mp h2)
        · rw [if_neg hc] at h
          cases h
          exact Or.inl hx
      · rw [if_neg hi] at h
        cases h
        exact Or.inl hx

/-- The part_002 generation loop formats exactly the raw code of each
successive provider call, in order. -/
theorem Part002.generateCodesFrom_eq (provider : Nat → String) :
    ∀ (c i : Nat),
      Part002.generateCodesFrom provider c i =
        (List.range c).map (fun j => Pair.formatCode (provider (i + j))) := by
  intro c
  induction c with
  | zero => intro i; rfl
  | succ m ih =>
      intro i
      rw [List.range_succ_eq_map]
      simp only [Part002.generateCodesFrom, ih (i + 1), List.map_cons,
        List.map_map, Nat.add_zero, List.cons.injEq, true_and]
      refine List.map_congr_left ?_
      intro j _
      have hj : i + 1 + j = i + (j + 1) := by omega
      simp [Function.comp, hj]

/-! Claim theorems. -/

/-- C4 counterexample: in src/server.js (lines 191-199, cited by the claim)
the raw code returned by the connection is appended to the result sequence
as-is, without the chunks-of-4 dash formatting: a successful run over the
raw code "ABCD1234" resolves with "ABCD1234", not with the formatted
"ABCD-1234". -/
theorem C4_format_cex :
    ServerJs.generatePairingCodes true
        (fun _ => ServerJs.ProviderOutcome.ok "ABCD1234") "15551234567" 1 10 =
      some { result := .ok ["ABCD1234"], providerCalls := ["15551234567"],
             cleanupScheduled := true } ∧
    Pair.formatCode "ABCD1234" = "ABCD-1234" ∧
    ("ABCD1234" : String) ≠ "ABCD-1234" := by
  refine ⟨rfl, rfl, by decide⟩

/-- C4 (amended): in the variants that format (for example part_002
generateCodes, lines 116-126), every raw code returned by the connection is
grouped into chunks of 4 characters joined by a dash before being appended,
and for the raw codes ABCD1234, EFGH5678, IJKL9012 the batch is exactly the
three dash-formatted strings; the src/server.js variant appends raw codes
without formatting. -/
theorem C4_format_grouping :
    (Part002.generateCodes
        (fun i => ["ABCD1234", "EFGH5678", "IJKL9012"].getD i "") 3 =
      ["ABCD-1234", "EFGH-5678", "IJKL-9012"]) ∧
    (∀ (provider : Nat → String) (count : Nat),
      Part002.generateCodes provider count =
        (List.range count).map (fun i => Pair.formatCode (provider i))) ∧
    (ServerJs.generatePairingCodes true
        (fun _ => ServerJs.ProviderOutcome.ok "ABCD1234") "15551234567" 1 10 =
      some { result := .ok ["ABCD1234"], providerCalls := ["15551234567"],
             cleanupScheduled := true }) := by
  refine ⟨rfl, ?_, rfl⟩
  intro provider count
  have h := Part002.generateCodesFrom_eq provider count 0
  simpa [Part002.generateCodes] using h

/-- C6 counterexample: the part_006 saveCodesToDisk (lines 91-97, cited by
the claim) writes the batch directly to its final path with no temporary
file and no rename, so the crash states of its script include one where a
truncated file is visible under the final name. -/
theorem C6_atomic_cex :
    ((Pair.crashViews (fun _ => none) (Part006.saveOps "p.json" "codes")).map
        (fun v => v "p.json")) =
      [none, some Pair.FileView.truncated, some (Pair.FileView.full "codes")] ∧
    some Pair.FileView.truncated ∈
      ((Pair.crashViews (fun _ => none) (Part006.saveOps "p.json" "codes")).map
        (fun v => v "p.json")) := by
  refine ⟨rfl, by decide⟩

/-- C6 (amended): the part_000 saveCodesToDisk writes the batch to a
temporary path and then atomically renames it onto the final name, so no
crash point shows a partial file under the final name - the final name is
either absent or holds the complete data; the part_006 saveCodesToDisk
writes directly to the final path, where a crash mid-write can leave a
truncated file visible under the final name. -/
theorem C6_atomic_persist :
    (∀ (filepath data : String),
      (Pair.crashViews (fun _ => none) (Part000.saveOps filepath data)).map
          (fun v => v filepath) =
        [none, none, none, some (Pair.FileView.full data)]) ∧
    (∀ (filepath data : String),
      (Pair.crashViews (fun _ => none) (Part006.saveOps filepath data)).map
          (fun v => v filepath) =
        [none, some Pair.FileView.truncated, some (Pair.FileView.full data)]) := by
  constructor
  · intro filepath data
    have hne : filepath ≠ filepath ++ ".tmp" := self_ne_append_tmp filepath
    simp [Pair.crashViews, Pair.midCrash, Pair.applyOp, Part000.saveOps, hne]
  · intro filepath data
    simp [Pair.crashViews, Pair.midCrash, Pair.applyOp, Part006.saveOps]

/-- C7 counterexample: in the part_000 close handler (cited by the claim), a
loggedOut close clears the credentials but does not reset the reconnect
counter to 0: `scheduleReconnect` increments it, so from 0 attempts the
counter after the loggedOut close is 1, not 0. -/
theorem C7_loggedout_reset_cex :
    Part000.onClose ⟨false, false, 0, true⟩ Pair.DisconnectReason.loggedOut =
      (⟨false, false, 1, false⟩, some 2000) ∧ (1 : Nat) ≠ 0 := by
  refine ⟨rfl, by decide⟩

/-- C7 (amended): a loggedOut close wipes the session credentials before the
reconnect is scheduled, and a timedOut close schedules a reconnect without
touching the credentials, in both cited variants; but in part_000 the
reconnect counter is incremented by the scheduler in every close case (it is
reset to 0 only when the connection opens), and a badSession close there
takes the generic reconnect branch without clearing the credentials - the
badSession credential wipe happens only in src/server.js, where loggedOut
and badSession clear the credential directory while timedOut restarts after
5s without clearing. -/
theorem C7_reconnect_policy :
    (∀ s : Part000.ConnState, s.reconnectAttempts < 10 →
      Part000.onClose s Pair.DisconnectReason.loggedOut =
        ({ s with ready := false, connecting := false, credsPresent := false,
                  reconnectAttempts := s.reconnectAttempts + 1 },
          some (min (1000 * 2 ^ (s.reconnectAttempts + 1)) 30000))) ∧
    (∀ s : Part000.ConnState, s.reconnectAttempts < 10 →
      Part000.onClose s Pair.DisconnectReason.timedOut =
        ({ s with ready := false, connecting := false,
                  reconnectAttempts := s.reconnectAttempts + 1 },
          some (min (1000 * 2 ^ (s.reconnectAttempts + 1)) 30000))) ∧
    (∀ s : Part000.ConnState, s.reconnectAttempts < 10 →
      Part000.onClose s Pair.DisconnectReason.badSession =
        ({ s with ready := false, connecting := false,
                  reconnectAttempts := s.reconnectAttempts + 1 },
          some (min (1000 * 2 ^ (s.reconnectAttempts + 1)) 30000))) ∧
    (∀ s : Part000.ConnState, (Part000.onOpen s).reconnectAttempts = 0) ∧
    ((ServerJs.onCloseAction Pair.DisconnectReason.loggedOut).clearsCreds = true ∧
      (ServerJs.onCloseAction Pair.DisconnectReason.badSession).clearsCreds = true ∧
      (ServerJs.onCloseAction Pair.DisconnectReason.timedOut).clearsCreds = false ∧
      (ServerJs.onCloseAction Pair.DisconnectReason.timedOut).action =
        Pair.ProcAction.restartSock ∧
      (ServerJs.onCloseAction Pair.DisconnectReason.timedOut).delayMs = 5000) := by
  refine ⟨?_, ?_, ?_, fun s => rfl, by decide⟩
  · intro s hs
    have hlt : s.reconnectAttempts < Part000.maxReconnectAttempts := by
      simp only [Part000.maxReconnectAttempts]; omega
    have hnot : ¬ Part000.maxReconnectAttempts ≤ s.reconnectAttempts :=
      Nat.not_le.mpr hlt
    simp [Part000.onClose, Part000.scheduleReconnect, Part000.clearSession,
      hlt, hnot]
  · intro s hs
    have hlt : s.reconnectAttempts < Part000.maxReconnectAttempts := by
      simp only [Part000.maxReconnectAttempts]; omega
    have hnot : ¬ Part000.maxReconnectAttempts ≤ s.reconnectAttempts :=
      Nat.not_le.mpr hlt
    simp [Part000.onClose, Part000.scheduleReconnect, Part000.clearSession,
      hlt, hnot]
  · intro s hs
    have hlt : s.reconnectAttempts < Part000.maxReconnectAttempts := by
      simp only [Part000.maxReconnectAttempts]; omega
    have hnot : ¬ Part000.maxReconnectAttempts ≤ s.reconnectAttempts :=
      Nat.not_le.mpr hlt
    simp [Part000.onClose, Part000.scheduleReconnect, Part000.clearSession,
      hlt, hnot]

/-- C7 witness: the amended transitions evaluated at a concrete state with
2 reconnect attempts: loggedOut clears the credentials and moves the counter
to 3 with an 8000 ms backoff; timedOut and badSession keep the
credentials in part_000. -/
theorem C7_reconnect_policy_witness :
    Part000.onClose ⟨true, false, 2, true⟩ Pair.DisconnectReason.loggedOut =
      (⟨false, false, 3, false⟩, some 8000) ∧
    Part000.onClose ⟨true, false, 2, true⟩ Pair.DisconnectReason.timedOut =
      (⟨false, false, 3, true⟩, some 8000) ∧
    Part000.onClose ⟨true, false, 2, true⟩ Pair.DisconnectReason.badSession =
      (⟨false, false, 3, true⟩, some 8000) := by
  refine ⟨?_, ?_, ?_⟩
  · exact C7_reconnect_policy.1 ⟨true, false, 2, true⟩ (by decide)
  · exact C7_reconnect_policy.2.1 ⟨true, false, 2, true⟩ (by decide)
  · exact C7_reconnect_policy.2.2.1 ⟨true, false, 2, true⟩ (by decide)

/-- C9 counterexample: in the part_005 variant (cited by the claim), the
handled loggedOut disconnect reaches process.exit, as does its
clearSessionAndRestart helper. -/
theorem C9_never_exit_cex :
    (Part005.onCloseAction Pair.DisconnectReason.loggedOut).action =
      Pair.ProcAction.exitProcess ∧
    Part005.clearSessionAndRestartAction.action = Pair.ProcAction.exitProcess := by
  exact ⟨rfl, rfl⟩

/-- C9 (amended): in src/server.js every disconnect reason is handled with a
delayed in-process socket restart and never a process exit; in the part_005
variant the transient reasons also restart in-process, but the loggedOut
disconnect and the post-run clearSessionAndRestart call process.exit,
relying on an external process manager to restart. -/
theorem C9_never_exit :
    (∀ r : Pair.DisconnectReason,
      (ServerJs.onCloseAction r).action = Pair.ProcAction.restartSock ∧
      0 < (ServerJs.onCloseAction r).delayMs) ∧
    ((Part005.onCloseAction Pair.DisconnectReason.badSession).action =
        Pair.ProcAction.restartSock ∧
      (Part005.onCloseAction Pair.DisconnectReason.timedOut).action =
        Pair.ProcAction.restartSock ∧
      (Part005.onCloseAction Pair.DisconnectReason.connectionLost).action =
        Pair.ProcAction.restartSock) ∧
    ((Part005.onCloseAction Pair.DisconnectReason.loggedOut).action =
        Pair.ProcAction.exitProcess ∧
      Part005.clearSessionAndRestartAction.action = Pair.ProcAction.exitProcess) := by
  refine ⟨?_, by decide, by decide⟩
  intro r
  cases r <;> exact ⟨rfl, by decide⟩

/-- C1 counterexample: in src/server.js (lines 173-177, cited by the claim)
a submitted count of 1000 is not clamped to 500: the run throws the
count-validation error before the loop, so zero provider requests are made
rather than 500. -/
theorem C1_count_clamp_cex :
    ServerJs.generatePairingCodes true
        (fun _ => ServerJs.ProviderOutcome.ok "ABCD1234") "15551234567" 1000 0 =
      some { result := .error .invalidCount, providerCalls := [],
             cleanupScheduled := false } ∧
    ([] : List String).length ≠ 500 := by
  refine ⟨rfl, by decide⟩

/-- C1 (amended): in the part_003 API pipeline the submitted count is
clamped into the range 1 to MAX_COUNT by sanitizedCount, the generator
always produces exactly the clamped number of result slots, and when every
provider call succeeds it makes exactly that many connection requests - in
particular a submitted 1000 is clamped to 500 and yields exactly 500
requests; the src/server.js variant instead rejects counts outside 1 to 500
with an error and makes no provider request for them. -/
theorem C1_count_clamped :
    (∀ c : Int, 1 ≤ Part003.sanitizedCount c ∧ Part003.sanitizedCount c ≤ 500) ∧
    (∀ c : Int, 500 ≤ c → Part003.sanitizedCount c = 500) ∧
    (∀ c : Int, c ≤ 1 → Part003.sanitizedCount c = 1) ∧
    (∀ (ready : Bool) (provider : Nat → Option String) (n c0 : Nat),
      ((Part003.genCodes ready provider n c0).1).length = n) ∧
    (∀ (f : Nat → String) (n c0 : Nat),
      (Part003.genCodes true (fun i => some (f i)) n c0).2 = n) ∧
    (Part003.sanitizedCount 1000 = 500 ∧
      (Part003.genCodes true (fun _ => some "ABCD1234") 500 0).2 = 500) ∧
    (∀ (provider : Nat → ServerJs.ProviderOutcome) (fuel : Nat),
      ServerJs.generatePairingCodes true provider "15551234567" 1000 fuel =
        some { result := .error .invalidCount, providerCalls := [],
               cleanupScheduled := false }) := by
  refine ⟨?_, ?_, ?_, Part003.genCodes_length, Part003.genCodes_calls_ok,
    ⟨by decide, Part003.genCodes_calls_ok (fun _ => "ABCD1234") 500 0⟩,
    fun provider fuel => rfl⟩
  · intro c
    constructor <;> (simp only [Part003.sanitizedCount, Part003.MAX_COUNT]; omega)
  · intro c hc
    simp only [Part003.sanitizedCount, Part003.MAX_COUNT]
    omega
  · intro c hc
    simp only [Part003.sanitizedCount, Part003.MAX_COUNT]
    omega

/-- C1 witness: the clamp evaluated at the out-of-range counts 1000 and 0. -/
theorem C1_count_clamped_witness :
    Part003.sanitizedCount 1000 = 500 ∧ Part003.sanitizedCount 0 = 1 := by
  exact ⟨C1_count_clamped.2.1 1000 (by decide), C1_count_clamped.2.2.1 0 (by decide)⟩

/-- C3: every phone number is normalized to digits only; in src/server.js a
normalized number shorter than 10 digits is rejected with the invalid-phone
error before any provider call, in the part_005 ui route an empty normalized
number is rejected before any provider call, and every provider call a
src/server.js run does make uses the normalized digits-only number. -/
theorem C3_phone_normalization :
    ∀ rawPhone : String,
      ((Pair.stripNonDigits rawPhone).data.all Char.isDigit) = true ∧
      (∀ (provider : Nat → ServerJs.ProviderOutcome) (count : Int) (fuel : Nat),
        (Pair.stripNonDigits rawPhone).length < 10 →
        ServerJs.generatePairingCodes true provider rawPhone count fuel =
          some { result := .error .invalidPhone, providerCalls := [],
                 cleanupScheduled := false }) ∧
      (∀ (provider : Nat → String) (rawCount : Int),
        Pair.stripNonDigits rawPhone = "" →
        Part005.uiPair provider rawPhone rawCount =
          (.error "Invalid phone input", [])) ∧
      (∀ (provider : Nat → ServerJs.ProviderOutcome) (count : Int) (fuel : Nat)
          (res : ServerJs.GenResult),
        ServerJs.generatePairingCodes true provider rawPhone count fuel = some res →
        ∀ x ∈ res.providerCalls, x = Pair.stripNonDigits rawPhone) := by
  intro rawPhone
  refine ⟨?_, ?_, ?_, ?_⟩
  · simp only [List.all_eq_true]
    intro x hx
    have hx2 : x ∈ List.filter Char.isDigit rawPhone.data := hx
    exact (List.mem_filter.mp hx2).2
  · intro provider count fuel h
    simp only [ServerJs.generatePairingCodes]
    rw [if_neg (by simp), if_pos (Or.inl h)]
  · intro provider rawCount h
    simp [Part005.uiPair, h]
  · intro provider count fuel res hres
    simp only [ServerJs.generatePairingCodes] at hres
    rw [if_neg (by simp)] at hres
    by_cases h1 : (Pair.stripNonDigits rawPhone).length < 10 ∨
        15 < (Pair.stripNonDigits rawPhone).length
    · rw [if_pos h1] at hres
      cases hres
      intro x hx
      simp at hx
    · rw [if_neg h1] at hres
      by_cases h2 : count < 1 ∨ 500 < count
      · rw [if_pos h2] at hres
        cases hres
        intro x hx
        simp at hx
      · rw [if_neg h2] at hres
        cases hlo : ServerJs.genLoop true provider (Pair.stripNonDigits rawPhone)
            count.toNat fuel 0 0 [] [] with
        | none => rw [hlo] at hres; cases hres
        | some rc =>
            obtain ⟨r, calls⟩ := rc
            rw [hlo] at hres
            cases hres
            intro x hx
            have hmem := ServerJs.genLoop_calls_mem true provider
              (Pair.stripNonDigits rawPhone) count.toNat fuel 0 0 [] []
              (r, calls) hlo x hx
            rcases hmem with hin | heq
            · simp at hin
            · exact heq

/-- C3 witness: a decorated number with 7 digits is rejected by src/server.js
with no provider call, and an input with no digits at all is rejected by the
part_005 ui route with no provider call. -/
theorem C3_phone_normalization_witness :
    ServerJs.generatePairingCodes true (fun _ => ServerJs.ProviderOutcome.ok "X")
        "+1 (555) 123" 3 5 =
      some { result := .error .invalidPhone, providerCalls := [],
             cleanupScheduled := false } ∧
    Part005.uiPair (fun _ => "ABCD1234") "+()-- " 2 =
      (.error "Invalid phone input", []) := by
  constructor
  · exact (C3_phone_normalization "+1 (555) 123").2.1 _ 3 5 (by decide)
  · exact (C3_phone_normalization "+()-- ").2.2.1 _ 2 (by decide)

/-- C10: once a src/server.js generation run passes validation and its loop
finishes - resolving with codes or throwing - the finally block schedules
the cleanup unconditionally; the cleanup deletes the session credential
directory and schedules a socket restart; and in the part_006 drain the
session clear-and-restart runs after every settled request, resolved or
rejected. -/
theorem C10_cleanup_after_every_run :
    (∀ (provider : Nat → ServerJs.ProviderOutcome) (phone : String) (count : Int)
        (fuel : Nat) (res : ServerJs.GenResult),
      ¬ (Pair.stripNonDigits phone).length < 10 →
      ¬ 15 < (Pair.stripNonDigits phone).length →
      ¬ count < 1 → ¬ 500 < count →
      ServerJs.generatePairingCodes true provider phone count fuel = some res →
      res.cleanupScheduled = true) ∧
    (ServerJs.clearSessionAndRestartFx =
      [ServerJs.FxEffect.deleteSessionDir, ServerJs.FxEffect.scheduleStartSock]) ∧
    (∀ (ready : Bool) (provider : Nat → Option String) (count : Nat),
      (Part006.processOne ready provider count).2 = true) := by
  refine ⟨?_, rfl, ?_⟩
  · intro provider phone count fuel res h1 h2 h3 h4 hres
    simp only [ServerJs.generatePairingCodes] at hres
    rw [if_neg (by simp), if_neg (by tauto), if_neg (by tauto)] at hres
    cases hlo : ServerJs.genLoop true provider (Pair.stripNonDigits phone)
        count.toNat fuel 0 0 [] [] with
    | none => rw [hlo] at hres; cases hres
    | some rc =>
        obtain ⟨r, calls⟩ := rc
        rw [hlo] at hres
        cases hres
        rfl
  · intro ready provider count
    cases ready
    · rfl
    · cases h : Part006.genCodes provider count 0 with
      | error e => simp [Part006.processOne, h]
      | ok codes => simp [Part006.processOne, h]

/-- C10 witness: a successful concrete run has the cleanup scheduled. -/
theorem C10_cleanup_after_every_run_witness :
    ({ result := .ok ["ABCD1234"], providerCalls := ["15551234567"],
       cleanupScheduled := true } : ServerJs.GenResult).cleanupScheduled = true :=
  C10_cleanup_after_every_run.1 (fun _ => ServerJs.ProviderOutcome.ok "ABCD1234")
    "15551234567" 1 10 _ (by decide) (by decide) (by decide) (by decide) rfl

/-- C5: when the part_003 drain shifts a pending request while the socket is
not ready, that request is rejected with the not-ready condition, the
provider-call trace is exactly the trace of the remaining requests (so the
rejected request contributed no provider call), and the request settles
exactly once - it is never re-queued or retried. -/
theorem C5_not_ready_rejects :
    ∀ (readyAt : Nat → Bool) (provider : Nat → Option String)
      (req : Part003.Request) (rest : List Part003.Request) (c0 : Nat),
      readyAt 0 = false →
      req.id ∉ rest.map Part003.Request.id →
      (Part003.drainAll readyAt provider (req :: rest) 0 c0).1 =
        (req.id, Part003.Outcome.rejected "Socket not ready") ::
          (Part003.drainAll readyAt provider rest 1 c0).1 ∧
      (Part003.drainAll readyAt provider (req :: rest) 0 c0).2 =
        (Part003.drainAll readyAt provider rest 1 c0).2 ∧
      ((Part003.drainAll readyAt provider (req :: rest) 0 c0).1.countP
          (fun p => p.1 == req.id)) = 1 := by
  intro readyAt provider req rest c0 hready hid
  have h1 : (Part003.drainAll readyAt provider (req :: rest) 0 c0).1 =
      (req.id, Part003.Outcome.rejected "Socket not ready") ::
        (Part003.drainAll readyAt provider rest 1 c0).1 := by
    simp [Part003.drainAll, hready]
  have h2 : (Part003.drainAll readyAt provider (req :: rest) 0 c0).2 =
      (Part003.drainAll readyAt provider rest 1 c0).2 := by
    simp [Part003.drainAll, hready]
  refine ⟨h1, h2, ?_⟩
  rw [h1, List.countP_cons]
  have hids := Part003.drainAll_ids readyAt provider rest 1 c0
  have htail : ((Part003.drainAll readyAt provider rest 1 c0).1.countP
      (fun p => p.1 == req.id)) = 0 := by
    rw [List.countP_eq_zero]
    intro a ha hb
    have heq : a.1 = req.id := by simpa using hb
    apply hid
    rw [← heq, ← hids]
    exact List.mem_map_of_mem Prod.fst ha
  simp [htail]

/-- C5 witness: a single pending request drained with the socket down is
rejected with the not-ready condition, zero provider calls are made, and it
settles exactly once. -/
theorem C5_not_ready_rejects_witness :
    (Part003.drainAll (fun _ => false) (fun _ => some "ABCD1234")
        [⟨7, 3⟩] 0 0).1 =
      [(7, Part003.Outcome.rejected "Socket not ready")] ∧
    (Part003.drainAll (fun _ => false) (fun _ => some "ABCD1234")
        [⟨7, 3⟩] 0 0).2 = [] ∧
    ((Part003.drainAll (fun _ => false) (fun _ => some "ABCD1234")
        [⟨7, 3⟩] 0 0).1.countP (fun p => p.1 == 7)) = 1 := by
  have h := C5_not_ready_rejects (fun _ => false) (fun _ => some "ABCD1234")
    ⟨7, 3⟩ [] 0 rfl (by simp)
  exact ⟨h.1, h.2.1, h.2.2⟩

/-- A drain over two pending requests with the socket ready yields a
provider-call trace that is a block of calls for the first request followed
by a block of calls for the second. -/
theorem Part003.drainAll_two_trace (provider : Nat → Option String)
    (r1 r2 : Part003.Request) (c0 : Nat) :
    ∃ n1 n2 : Nat,
      (Part003.drainAll (fun _ => true) provider [r1, r2] 0 c0).2 =
        List.replicate n1 r1.id ++ List.replicate n2 r2.id := by
  refine ⟨(Part003.genCodes true provider r1.count c0).2,
    (Part003.genCodes true provider r2.count
      (c0 + (Part003.genCodes true provider r1.count c0).2)).2, ?_⟩
  simp [Part003.drainAll]

/-- C2: a pairing request enqueued while a worker is already processing its
phone never spawns a second worker - it only grows the FIFO pending list;
and when one worker drains two back-to-back requests for the same phone, the
requests settle in submission order and every provider call of the second
request happens at a strictly later position in the call trace than every
provider call of the first, with no interleaving. -/
theorem C2_per_phone_fifo :
    (∀ (q : Part003.PhoneQueue) (r : Part003.Request),
      q.processing = true →
      (Part003.enqueue q r).2 = false ∧
      ((Part003.enqueue q r).1).processing = true ∧
      ((Part003.enqueue q r).1).requests = q.requests ++ [r]) ∧
    (∀ (provider : Nat → Option String) (r1 r2 : Part003.Request),
      r1.id ≠ r2.id →
      ((Part003.drainAll (fun _ => true) provider [r1, r2] 0 0).1.map Prod.fst =
        [r1.id, r2.id]) ∧
      (∀ (i j : Nat)
          (hi : i < ((Part003.drainAll (fun _ => true) provider [r1, r2] 0 0).2).length)
          (hj : j < ((Part003.drainAll (fun _ => true) provider [r1, r2] 0 0).2).length),
        ((Part003.drainAll (fun _ => true) provider [r1, r2] 0 0).2).get ⟨i, hi⟩ =
          r1.id →
        ((Part003.drainAll (fun _ => true) provider [r1, r2] 0 0).2).get ⟨j, hj⟩ =
          r2.id →
        i < j)) := by
  constructor
  · intro q r h
    simp [Part003.enqueue, h]
  · intro provider r1 r2 hne
    constructor
    · rw [Part003.drainAll_ids]
      rfl
    · intro i j hi hj hgi hgj
      obtain ⟨n1, n2, htr⟩ := Part003.drainAll_two_trace provider r1 r2 0
      have e1 := List.get_of_eq htr ⟨i, hi⟩
      rw [hgi] at e1
      have e2 := List.get_of_eq htr ⟨j, hj⟩
      rw [hgj] at e2
      have hi2 := get_replicate_append_lt r1.id r2.id hne n1 n2 i _ e1.symm
      have hj2 := get_replicate_append_ge r1.id r2.id hne n1 n2 j _ e2.symm
      omega

/-- C2 witness: the guard and the trace ordering at concrete inputs: with a
worker already processing, enqueue starts no second worker; and for two
concrete requests the unique r1 call positions all precede the r2 call
positions. -/
theorem C2_per_phone_fifo_witness :
    (Part003.enqueue ⟨[], true⟩ ⟨1, 2⟩).2 = false ∧
    ((Part003.drainAll (fun _ => true) (fun _ => some "ABCD1234")
        [⟨1, 2⟩, ⟨2, 3⟩] 0 0).1.map Prod.fst = [1, 2]) := by
  constructor
  · exact ((C2_per_phone_fifo.1 ⟨[], true⟩ ⟨1, 2⟩) rfl).1
  · exact (C2_per_phone_fifo.2 (fun _ => some "ABCD1234") ⟨1, 2⟩ ⟨2, 3⟩
      (by decide)).1

/-- C8 counterexample: the src/server.js rate-limit handling (lines 201-213,
cited by the claim) has no retry bound: under a provider that reports a
rate-limit on every call, a batch of one code is still unfinished after 1000
loop iterations - the same slot has been retried 1000 times. -/
theorem C8_rate_limit_cex :
    ServerJs.generatePairingCodes true
      (fun _ => ServerJs.ProviderOutcome.rateLimited) "15551234567" 1 1000 =
      none := by
  have h := ServerJs.genLoop_rl_none (Pair.stripNonDigits "15551234567") 1
    1000 0 0 [] [] (by decide)
  simp only [ServerJs.generatePairingCodes]
  rw [if_neg (by simp), if_neg (by decide), if_neg (by decide)]
  have h1 : ((1 : Int)).toNat = 1 := rfl
  rw [h1, h]

/-- C8 (amended): in src/server.js a rate-limited call is retried on the
same slot without consuming it, but the retries are unbounded - under a
persistently rate-limiting provider the generation loop never finishes, for
any amount of fuel; the part_003 generator instead bounds the work - it
always terminates with exactly one slot string per requested code and makes
at most 3 provider calls per slot. -/
theorem C8_rate_limit_retry :
    (∀ fuel : Nat,
      ServerJs.generatePairingCodes true
        (fun _ => ServerJs.ProviderOutcome.rateLimited) "15551234567" 1 fuel =
        none) ∧
    (ServerJs.generatePairingCodes true
        (fun c => if c = 0 then ServerJs.ProviderOutcome.rateLimited
                  else ServerJs.ProviderOutcome.ok "ABCD1234")
        "15551234567" 1 10 =
      some { result := .ok ["ABCD1234"],
             providerCalls := ["15551234567", "15551234567"],
             cleanupScheduled := true }) ∧
    (∀ (ready : Bool) (provider : Nat → Option String) (n c0 : Nat),
      ((Part003.genCodes ready provider n c0).1).length = n ∧
      (Part003.genCodes ready provider n c0).2 ≤ 3 * n) := by
  refine ⟨?_, rfl, ?_⟩
  · intro fuel
    have h := ServerJs.genLoop_rl_none (Pair.stripNonDigits "15551234567") 1
      fuel 0 0 [] [] (by decide)
    simp only [ServerJs.generatePairingCodes]
    rw [if_neg (by simp), if_neg (by decide), if_neg (by decide)]
    have h1 : ((1 : Int)).toNat = 1 := rfl
    rw [h1, h]
  · intro ready provider n c0
    exact ⟨Part003.genCodes_length ready provider n c0,
      Part003.genCodes_calls_le ready provider n c0⟩
